import Mathlib

/-!
Verification development for the nextlib-api reservation system.

The JavaScript sources are shallowly embedded: wall-clock `HH:MM` strings are
represented by their minutes-since-midnight value (`timeToMinutes` from
`src/routes/v1/reservation/routes.js` is the evident bijection on valid
military times), calendar dates by an abstract day index (the Mongo
`$year/$month/$dayOfMonth` equality test and `getStartEndOfDay` range test
both collapse to equality of day indices), and Mongo collections by lists of
records.  Route handlers become total functions returning `Except`.
-/

namespace NextLib

/-! ## Data model (src/unnamed/part_005, src/models/UsageHistory.js) -/

/-- Reservation lifecycle status enum of the reservation schema. -/
inductive RStatus
  | pending
  | approved
  | rejected
  | active
  | completed
  | cancelled
deriving DecidableEq, Repr

/-- The `reservation_type` enum: `laboratory` (a Room) or `computer` (a Workstation). -/
inductive RType
  | laboratory
  | computer
deriving DecidableEq, Repr

/-- A reservation document.  `start_time`/`end_time` are minutes since
midnight (the live schema requires them as military-time strings, so every
persisted record takes the string branch of the legacy/new-format
dispatches); `rdate` is the calendar-day index of `reservation_date`. -/
structure Reservation where
  rid : Nat
  user_id : Nat
  rtype : RType
  computer_id : Option Nat := none
  laboratory_id : Option Nat := none
  rdate : Nat
  start_time : Nat
  end_time : Nat
  duration : Nat
  purpose : String := ""
  notes : Option String := none
  status : RStatus := .pending
  approved_by : Option Nat := none
  started_at : Option Nat := none
  completed_at : Option Nat := none
  isDeleted : Bool := false
deriving DecidableEq, Repr

/-- A parsed `timeslot` string of a subject schedule ("HH:MM-HH:MM"),
as produced by `parseTimeslot`. -/
structure Timeslot where
  tstart : Nat
  tstop : Nat
deriving DecidableEq, Repr

/-- A `SubjectScheduler` document (one materialized class-schedule
occurrence).  The model stores no room reference; availability queries fetch
all schedules for a date. -/
structure SubjectSchedule where
  sid : Nat
  sdate : Nat
  timeslot : Timeslot
  isDeleted : Bool := false
deriving DecidableEq, Repr

/-- A `Computer` document restricted to the fields the availability probe
reads: its id and its parent laboratory. -/
structure Computer where
  cid : Nat
  laboratory_id : Nat
  isDeleted : Bool := false
deriving DecidableEq, Repr

/-- Caller roles as the routes distinguish them: `req.userType === "admin"`,
or an authenticated user with `user_type` `"faculty"` / `"student"`. -/
inductive Role
  | admin
  | faculty
  | student
deriving DecidableEq, Repr

/-- Error outcomes of the embedded route handlers.  `validationFailed` is a
route-level 400 response; `saveFailed` is a mongoose validation error thrown
by `save()` (surfaced by the routes as a 500); `invalidTransition` is the
400 response of a lifecycle guard; `conflictDetected` is the 409 response. -/
inductive ApiErr
  | notFound
  | forbidden
  | invalidTransition
  | validationFailed (msg : String)
  | saveFailed (msg : String)
  | conflictDetected (conflicts : List Reservation)
deriving DecidableEq, Repr

/-! ## The overlap law at each site where conflicts are computed -/

/-- The half-open interval overlap proposition `s1 < e2 ∧ s2 < e1`. -/
def overlapPred (s1 e1 s2 e2 : Nat) : Prop := s1 < e2 ∧ s2 < e1

/-- Overlap test of `checkReservationConflicts`
(`src/routes/v1/reservation/routes.js:129`):
`(requestedStartMinutes < existingEndMinutes) && (existingStartMinutes < requestedEndMinutes)`. -/
def reservationOverlapCheck (reqStart reqEnd : Nat) (r : Reservation) : Bool :=
  decide (reqStart < r.end_time ∧ r.start_time < reqEnd)

/-- Per-slot reservation conflict test of the availability probes
(`src/routes/v1/computer/routes.js:552`, `src/routes/v1/laboratory/routes.js:492`):
`(currentMinutes < reservationEndMinutes) && (reservationStartMinutes < slotEndMinutes)`. -/
def slotReservationConflict (slotStart slotEnd : Nat) (r : Reservation) : Bool :=
  decide (slotStart < r.end_time ∧ r.start_time < slotEnd)

/-- Per-slot subject-schedule conflict test of the availability probes
(`src/routes/v1/computer/routes.js:559`, `src/routes/v1/laboratory/routes.js:498`):
`(currentMinutes < schedEnd) && (schedStart < slotEndMinutes)`. -/
def slotScheduleConflict (slotStart slotEnd : Nat) (s : SubjectSchedule) : Bool :=
  decide (slotStart < s.timeslot.tstop ∧ s.timeslot.tstart < slotEnd)

/-- `isOverlap` of the subject-scheduler insertion route
(`src/unnamed/part_019:22-31`):
`toMinutes(a.start) < toMinutes(b.end) && toMinutes(b.start) < toMinutes(a.end)`. -/
def isOverlap (a b : Timeslot) : Bool :=
  decide (a.tstart < b.tstop ∧ b.tstart < a.tstop)

/-! ## ConflictDetector: `checkReservationConflicts`
(`src/routes/v1/reservation/routes.js:67-133`) -/

/-- The Mongo `conflictQuery` built by `checkReservationConflicts`: same
`reservation_type`, status `approved` or `active`, not deleted, same
calendar date, and not the excluded reservation id.  There is no
laboratory/computer id constraint in the source query. -/
def conflictQueryMatch (d : Nat) (t : RType) (excludeId : Option Nat) (r : Reservation) : Bool :=
  decide (r.rtype = t ∧ (r.status = .approved ∨ r.status = .active) ∧
    r.isDeleted = false ∧ r.rdate = d ∧ excludeId ≠ some r.rid)

/-- `checkReservationConflicts(reservationDate, startTime, duration,
reservationType, excludeReservationId)` for a military-time `startTime`:
the requested interval is `[start, start+duration)` and the query results
are filtered by the overlap law. -/
def checkReservationConflicts (db : List Reservation) (d startM dur : Nat)
    (t : RType) (excludeId : Option Nat) : List Reservation :=
  let reqStart := startM
  let reqEnd := startM + dur
  (db.filter (conflictQueryMatch d t excludeId)).filter (reservationOverlapCheck reqStart reqEnd)

/-! ## Subject-schedule insertion (`src/unnamed/part_019:71-91`, single-schedule path) -/

/-- `POST /` of the subject-scheduler router, non-recurring branch: fetch the
existing schedules of the date and refuse creation when `isOverlap` holds
against any of them. -/
def createSubjectSchedule (existing : List SubjectSchedule) (d : Nat) (ts : Timeslot)
    (newId : Nat) : Except ApiErr SubjectSchedule :=
  if (existing.filter (fun x => decide (x.sdate = d))).any (fun x => isOverlap ts x.timeslot) then
    .error (.validationFailed "A schedule already exists for this date with overlapping timeslot.")
  else
    .ok { sid := newId, sdate := d, timeslot := ts, isDeleted := false }

/-! ## AvailabilityEngine: the slot grid and per-slot views
(`src/routes/v1/computer/routes.js:415-623`,
`src/routes/v1/laboratory/routes.js:278-608`) -/

/-- Slot starts generated by the loop
`for (current = startM; current < endM; current += dur) { if (current + dur > endM) break; push(current); }`.
Because the starts increase by the constant step `dur`, the loop pushes
exactly the starts `startM + i * dur` with `(i + 1) * dur ≤ endM - startM`.
The all-day special case of the laboratory route (one slot `[480, 1020)` for
`dur = 540`) coincides with this formula. -/
def slotStarts (startM endM dur : Nat) : List Nat :=
  (List.range ((endM - startM) / dur)).map (fun i => startM + i * dur)

/-- One entry of the availability response: a slot with its past flag,
conflict flag, availability flag and the commitments that conflict with it. -/
structure SlotView where
  slot_start : Nat
  slot_end : Nat
  is_past : Bool
  has_conflict : Bool
  is_available : Bool
  conflicting_reservations : List Reservation
  conflicting_schedules : List SubjectSchedule
deriving DecidableEq, Repr

/-- Builds one slot view exactly as both availability routes do:
`isPast` is `sameDay(target, now) && slotStart < nowMinutes`,
`hasConflict` is `someReservationOverlaps || someScheduleOverlaps`
(the `some(...)` tests use the same predicate as the conflict lists), and
`is_available = !isPast && !hasConflict`. -/
def mkSlot (allRes : List Reservation) (dayScheds : List SubjectSchedule)
    (d nowD nowM slotStart slotEnd : Nat) : SlotView :=
  let isPast := decide (d = nowD ∧ slotStart < nowM)
  let rc := allRes.filter (slotReservationConflict slotStart slotEnd)
  let sc := dayScheds.filter (slotScheduleConflict slotStart slotEnd)
  let hasConflict := !rc.isEmpty || !sc.isEmpty
  { slot_start := slotStart
    slot_end := slotEnd
    is_past := isPast
    has_conflict := hasConflict
    is_available := !isPast && !hasConflict
    conflicting_reservations := rc
    conflicting_schedules := sc }

/-- Query for reservations directly on the probed computer
(`src/routes/v1/computer/routes.js:454-463`).  The status filter includes
`pending` — the source comment reads "Include pending, approved and active
reservations". -/
def computerResMatch (c : Computer) (d : Nat) (r : Reservation) : Bool :=
  decide (r.isDeleted = false ∧ r.rtype = .computer ∧ r.computer_id = some c.cid ∧
    r.rdate = d ∧ (r.status = .pending ∨ r.status = .approved ∨ r.status = .active))

/-- Query for laboratory reservations on the probed computer's parent
laboratory (`src/routes/v1/computer/routes.js:466-475`); also includes
`pending`. -/
def parentLabResMatch (c : Computer) (d : Nat) (r : Reservation) : Bool :=
  decide (r.isDeleted = false ∧ r.rtype = .laboratory ∧
    r.laboratory_id = some c.laboratory_id ∧ r.rdate = d ∧
    (r.status = .pending ∨ r.status = .approved ∨ r.status = .active))

/-- Query for the subject schedules of the target date
(`src/routes/v1/computer/routes.js:478-484`); note it has no laboratory
constraint. -/
def schedDayMatch (d : Nat) (s : SubjectSchedule) : Bool :=
  decide (s.sdate = d ∧ s.isDeleted = false)

/-- `GET /availability/:computer_id`: the produced slot-by-slot view.
The operating window is 8:00 AM to 5:00 PM (480 to 1020 minutes). -/
def computerDayView (db : List Reservation) (scheds : List SubjectSchedule)
    (c : Computer) (d dur nowD nowM : Nat) : List SlotView :=
  let allRes := db.filter (computerResMatch c d) ++ db.filter (parentLabResMatch c d)
  let dayScheds := scheds.filter (schedDayMatch d)
  (slotStarts 480 1020 dur).map (fun s => mkSlot allRes dayScheds d nowD nowM s (s + dur))

/-- Query for reservations on the probed laboratory
(`src/routes/v1/laboratory/routes.js:318-327`).  Here the status filter is
`approved`/`active` only — the source comment reads "Only consider approved
and active reservations". -/
def labResMatch (lab d : Nat) (r : Reservation) : Bool :=
  decide (r.isDeleted = false ∧ r.rtype = .laboratory ∧ r.laboratory_id = some lab ∧
    r.rdate = d ∧ (r.status = .approved ∨ r.status = .active))

/-- `GET /availability/:laboratory_id`: the produced slot-by-slot view. -/
def laboratoryDayView (db : List Reservation) (scheds : List SubjectSchedule)
    (lab d dur nowD nowM : Nat) : List SlotView :=
  let labRes := db.filter (labResMatch lab d)
  let dayScheds := scheds.filter (schedDayMatch d)
  (slotStarts 480 1020 dur).map (fun s => mkSlot labRes dayScheds d nowD nowM s (s + dur))

/-! ## Saving a reservation document: mongoose schema validation plus the
pre-save hook of `src/unnamed/part_005:184-231` -/

/-- Distance between two naturals. -/
def natAbsDiff (a b : Nat) : Nat := if a ≤ b then b - a else a - b

/-- `Reservation.save()` on an already-persisted document: schema validation
(duration bounds 1..480) runs first; the pre-save hook is skipped entirely
for deleted documents, and otherwise checks `end_time > start_time` and that
`duration` matches `end_time - start_time` within 1 minute.  (The hook's
past-date check fires only on new documents and appears in
`createReservation` instead; its duration-autoset branch is unreachable
because schema validation already requires `duration ≥ 1`.) -/
def saveExisting (r : Reservation) : Except ApiErr Reservation :=
  if r.duration < 1 ∨ 480 < r.duration then
    .error (.saveFailed "Duration cannot exceed 8 hours (480 minutes)")
  else if r.isDeleted then .ok r
  else if r.end_time ≤ r.start_time then
    .error (.saveFailed "End time must be after start time on the same day")
  else if r.duration ≠ 0 ∧ 1 < natAbsDiff r.duration (r.end_time - r.start_time) then
    .error (.saveFailed "Duration must match the difference between start_time and end_time")
  else .ok r

/-- A reservation document that satisfies every save-time validation of the
schema and pre-save hook — every record the API itself persists is of this
shape. -/
def WellFormed (r : Reservation) : Prop :=
  1 ≤ r.duration ∧ r.duration ≤ 480 ∧ r.start_time < r.end_time ∧
    natAbsDiff r.duration (r.end_time - r.start_time) ≤ 1 ∧ r.isDeleted = false

/-! ## String helpers shared by the route handlers -/

/-- The JS idiom `value?.trim() || null`: a missing value stays null and a
value trimming to the empty string becomes null. -/
def trimOrNone (s : Option String) : Option String :=
  match s with
  | some t => if t.trim = "" then none else some t.trim
  | none => none

/-- The JS idiom `if (notes) reservation.notes = notes.trim()`: the notes
field is overwritten only by a present, non-empty string. -/
def notesIfPresent (old : Option String) (notes : Option String) : Option String :=
  match notes with
  | some n => if n = "" then old else some n.trim
  | none => old

/-- The rejection-notes concatenation of `PATCH /:id/reject`
(`src/routes/v1/reservation/routes.js:902-907`). -/
def rejectionNotes (reason notes : Option String) : Option String :=
  let s1 := match reason with
    | some x => if x = "" then "" else "Reason: " ++ x.trim
    | none => ""
  let s2 := match notes with
    | some n => if n = "" then s1 else if s1 = "" then n.trim else s1 ++ ". Notes: " ++ n.trim
    | none => s1
  if s2 = "" then none else some s2

/-- The auto-approval note appended for faculty laboratory reservations
(`src/routes/v1/reservation/routes.js:629-631`). -/
def facultyLabNotes (notes : Option String) : Option String :=
  some (((notes.map String.trim).getD "" ++
    " [Auto-approved: Faculty laboratory reservation]").trim)

/-! ## Reservation creation: `POST /`
(`src/routes/v1/reservation/routes.js:414-662`, military-time path) -/

/-- The `new Reservation({...})` document built at
`src/routes/v1/reservation/routes.js:619-635`.  Resource ids of the other
kind are nulled; faculty laboratory auto-approvals get the auto-approval
note appended. -/
def buildReservation (role : Role) (userId : Nat) (t : RType) (compId labId : Option Nat)
    (d sM eM newNum : Nat) (purpose : String) (notes : Option String)
    (st : RStatus) (approver : Option Nat) : Reservation :=
  { rid := newNum
    user_id := userId
    rtype := t
    computer_id := if t = .computer then compId else none
    laboratory_id := if t = .laboratory then labId else none
    rdate := d
    start_time := sM
    end_time := eM
    duration := eM - sM
    purpose := purpose.trim
    notes := if role = .faculty ∧ t = .laboratory ∧ st = .approved
      then facultyLabNotes notes else trimOrNone notes
    status := st
    approved_by := approver
    started_at := none
    completed_at := none
    isDeleted := false }

/-- `POST /` after request parsing and resource resolution, start/end-time
path: validates end-after-start; runs `checkReservationConflicts` only for a
faculty caller targeting a laboratory and answers 409 on any conflict;
otherwise sets the status by role (admin → approved with the operator as
approver; faculty + laboratory → approved with no approver; otherwise
pending) and saves, where the save re-runs schema validation (duration
bounds) and the pre-save hook's not-in-the-past check for new documents.
`newNum` stands for the generated unique reservation number; `nowD`/`nowM`
are the current day and minutes-since-midnight.  On success the returned
list is the database with the new record appended. -/
def createReservation (db : List Reservation) (role : Role) (userId : Nat) (t : RType)
    (compId labId : Option Nat) (d sM eM newNum nowD nowM : Nat)
    (purpose : String) (notes : Option String) :
    Except ApiErr (Reservation × List Reservation) :=
  if eM ≤ sM then
    .error (.validationFailed "End time must be after start time on the same day")
  else
    let dur := eM - sM
    let conflicts := if t = .laboratory ∧ role = .faculty then
        checkReservationConflicts db d sM dur t none
      else []
    if conflicts.isEmpty = false then .error (.conflictDetected conflicts)
    else
      let st := if role = .admin then RStatus.approved
        else if role = .faculty ∧ t = .laboratory then RStatus.approved
        else RStatus.pending
      let approver := if role = .admin then some userId else none
      let r := buildReservation role userId t compId labId d sM eM newNum purpose notes st approver
      if dur < 1 ∨ 480 < dur then
        .error (.saveFailed "Duration cannot exceed 8 hours (480 minutes)")
      else if d < nowD ∨ (d = nowD ∧ sM < nowM) then
        .error (.saveFailed "Cannot create reservation in the past")
      else .ok (r, db ++ [r])

/-- The reservations visible after a creation attempt: the appended database
on success, the unchanged database on any error (the route answers before
`save()` on a conflict, so nothing is persisted). -/
def persistedDb (db : List Reservation) (res : Except ApiErr (Reservation × List Reservation)) :
    List Reservation :=
  match res with
  | .ok p => p.2
  | .error _ => db

/-- True exactly when a creation attempt was answered with the 409 conflict
response. -/
def isConflictErr {α : Type} : Except ApiErr α → Bool
  | .error (.conflictDetected _) => true
  | _ => false

/-- True exactly when a route handler succeeded. -/
def isOkE {α : Type} : Except ApiErr α → Bool
  | .ok _ => true
  | .error _ => false

/-- Modelled from the spec: a "committed commitment on that same Room" — a
reservation on the Room in approved or active status on the date, or a
recurring class-schedule occurrence in that Room on the date, overlapping
the interval `[s, e)`.  The code's `SubjectScheduler` model records no room,
so the spec-side schedule occurrences carry their own room field here. -/
structure RoomScheduleOccurrence where
  room : Nat
  sdate : Nat
  timeslot : Timeslot
deriving DecidableEq, Repr

/-- Modelled from the spec: the right-hand side of claim C1 — some committed
commitment on the given room overlaps `[s, e)` on date `d`. -/
def specCommittedOnRoom (db : List Reservation) (occs : List RoomScheduleOccurrence)
    (room d s e : Nat) : Prop :=
  (∃ r ∈ db, r.isDeleted = false ∧ r.rtype = .laboratory ∧ r.laboratory_id = some room ∧
    r.rdate = d ∧ (r.status = .approved ∨ r.status = .active) ∧
    s < r.end_time ∧ r.start_time < e) ∨
  (∃ o ∈ occs, o.room = room ∧ o.sdate = d ∧ s < o.timeslot.tstop ∧ o.timeslot.tstart < e)

/-! ## Reservation lifecycle routes
(`src/routes/v1/reservation/routes.js:665-1106`) -/

/-- `PATCH /:id/approve`: only pending reservations can be approved; records
the approving admin. -/
def approveReservation (r : Reservation) (adminId : Nat) (notes : Option String) :
    Except ApiErr Reservation :=
  if r.status ≠ .pending then .error .invalidTransition
  else saveExisting { r with
    status := .approved
    approved_by := some adminId
    notes := notesIfPresent r.notes notes }

/-- `PATCH /:id/reject`: only pending reservations can be rejected; records
the admin and the concatenated reason/notes. -/
def rejectReservation (r : Reservation) (adminId : Nat) (reason notes : Option String) :
    Except ApiErr Reservation :=
  if r.status ≠ .pending then .error .invalidTransition
  else saveExisting { r with
    status := .rejected
    approved_by := some adminId
    notes := rejectionNotes reason notes }

/-- `PATCH /:id/start`: only approved reservations can be started; stamps
`started_at`. -/
def startReservation (r : Reservation) (nowT : Nat) : Except ApiErr Reservation :=
  if r.status ≠ .approved then .error .invalidTransition
  else saveExisting { r with status := .active, started_at := some nowT }

/-- `PATCH /:id/complete`: only approved or active reservations can be
completed; stamps `completed_at`. -/
def completeReservation (r : Reservation) (nowT : Nat) (notes : Option String) :
    Except ApiErr Reservation :=
  if r.status ≠ .approved ∧ r.status ≠ .active then .error .invalidTransition
  else saveExisting { r with
    status := .completed
    completed_at := some nowT
    notes := notesIfPresent r.notes notes }

/-- `PATCH /:id/cancel`: a plain user may cancel only their own reservation
(403 otherwise); forbidden once completed or already cancelled. -/
def cancelReservation (r : Reservation) (isOwnerOrAdmin : Bool) (notes : Option String) :
    Except ApiErr Reservation :=
  if isOwnerOrAdmin = false then .error .forbidden
  else if r.status = .completed ∨ r.status = .cancelled then .error .invalidTransition
  else saveExisting { r with status := .cancelled, notes := notesIfPresent r.notes notes }

/-- `PATCH /:id/status` (admin): sets any requested status with no guard on
the current status, updating the side fields for the requested status
(`approved_by` when approving or rejecting, `started_at` when activating,
`completed_at` when completing).  `notes` distinguishes absent
(field untouched) from present-null/string. -/
def setStatusRoute (r : Reservation) (adminId : Nat) (target : RStatus)
    (notes : Option (Option String)) (nowT : Nat) : Except ApiErr Reservation :=
  let r1 := { r with
    status := target
    notes := match notes with | some n => trimOrNone n | none => r.notes }
  let r2 := if target = .approved ∨ target = .rejected
    then { r1 with approved_by := some adminId } else r1
  let r3 := if target = .active then { r2 with started_at := some nowT } else r2
  let r4 := if target = .completed then { r3 with completed_at := some nowT } else r3
  saveExisting r4

/-! ## Usage sessions and the quota debit
(`src/routes/v1/usage-history/routes.js:274-389`, `src/models/UsageHistory.js`) -/

/-- Status enum of a usage-history document. -/
inductive UStatus
  | active
  | completed
  | interrupted
  | overtime
deriving DecidableEq, Repr

/-- A usage-history document (times in minutes since midnight). -/
structure UsageSession where
  usid : Nat
  reservation_id : Nat
  user_uid : Nat
  time_in : Nat
  time_out : Option Nat := none
  duration : Nat := 0
  status : UStatus := .active
  isDeleted : Bool := false
deriving DecidableEq, Repr

/-- A quota holder: `remaining_time` is the parsed minute value of the
`HH:MM:SS` balance string, `none` when the field is null (its schema
default).  The route's `HH:MM:SS` round-trip is exact on whole minutes. -/
structure QuotaUser where
  uid : Nat
  remaining_time : Option Nat
deriving DecidableEq, Repr

/-- The combined state returned by ending a session. -/
structure EndSessionResult where
  session : UsageSession
  user : QuotaUser
  reservation : Reservation
  overtimeLogged : Bool
deriving DecidableEq, Repr

/-- `PATCH /:id/end-session`: only active sessions can be ended; the
`time_out` validator requires time-out after time-in; the pre-save hook
recomputes `duration = time_out - time_in` and coerces a still-active status
to completed; the holder's balance is set to `max(0, balance - duration)`
(truncated subtraction) when a balance exists, with overtime merely logged;
and the parent reservation is unconditionally set to completed. -/
def endSession (s : UsageSession) (u : QuotaUser) (resv : Reservation)
    (timeOut : Nat) (reqStatus : UStatus) : Except ApiErr EndSessionResult :=
  if s.status ≠ .active then .error .invalidTransition
  else if timeOut ≤ s.time_in then
    .error (.saveFailed "Time out must be in 24-hour format and after time in")
  else
    let dur := timeOut - s.time_in
    let newStatus := if reqStatus = .active then UStatus.completed else reqStatus
    let s2 := { s with time_out := some timeOut, duration := dur, status := newStatus }
    match u.remaining_time with
    | some bal =>
        .ok { session := s2
              user := { u with remaining_time := some (bal - dur) }
              reservation := { resv with status := .completed }
              overtimeLogged := decide (bal < dur) }
    | none =>
        .ok { session := s2
              user := u
              reservation := { resv with status := .completed }
              overtimeLogged := false }

/-! ## Semester transition and quota reset (`src/unnamed/part_002:105-127`) -/

/-- Semester name enum. -/
inductive SemName
  | first
  | second
  | summer
deriving DecidableEq, Repr

/-- One configured semester with its date range (day indices). -/
structure Semester where
  name : SemName
  start_date : Nat
  end_date : Nat
deriving DecidableEq, Repr

/-- The active academic configuration (the fields
`updateActiveSemesterForActiveConfig` reads and writes). -/
structure AcademicConfig where
  semesters : List Semester
  active_semester : Option SemName
deriving DecidableEq, Repr

/-- `computeActiveSemester`: the first configured semester whose date range
contains the given day, else null. -/
def computeActiveSemester (cfg : AcademicConfig) (d : Nat) : Option SemName :=
  (cfg.semesters.find? (fun s => decide (s.start_date ≤ d ∧ d ≤ s.end_date))).map Semester.name

/-- A user record restricted to what the quota reset reads and writes. -/
structure StudentAccount where
  uid : Nat
  isStudent : Bool
  isDeleted : Bool
  remaining_time : Option Nat
deriving DecidableEq, Repr

/-- `User.updateMany({user_type: "student", isDeleted: false}, {$set:
{remaining_time: default}})`. -/
def resetStudentBalances (users : List StudentAccount) (t : Nat) : List StudentAccount :=
  users.map (fun u => if u.isStudent = true ∧ u.isDeleted = false
    then { u with remaining_time := some t } else u)

/-- Result of the semester-update trigger. -/
structure SemesterUpdateResult where
  config : AcademicConfig
  users : List StudentAccount
  semester_changed : Bool
deriving DecidableEq, Repr

/-- `updateActiveSemesterForActiveConfig`, given the active config:
recomputes the active semester for today; when it differs from the stored
one, stores it, and only on a transition from null to a semester (and with a
configured default) bulk-resets every non-deleted student's balance. -/
def updateActiveSemesterForActiveConfig (cfg : AcademicConfig) (users : List StudentAccount)
    (defaultAllotted : Option Nat) (today : Nat) : SemesterUpdateResult :=
  let previous := cfg.active_semester
  let current := computeActiveSemester cfg today
  if previous = current then
    { config := cfg, users := users, semester_changed := false }
  else
    let cfg2 := { cfg with active_semester := current }
    if previous = none ∧ current ≠ none then
      match defaultAllotted with
      | some t => { config := cfg2, users := resetStudentBalances users t,
                    semester_changed := true }
      | none => { config := cfg2, users := users, semester_changed := true }
    else { config := cfg2, users := users, semester_changed := true }

/-! ## Reservation update and delete routes
(`src/routes/v1/reservation/routes.js:756-804`, `routes.js:1109-1140`) -/

/-- The body of `PATCH /:id`; each field distinguishes absent from present
(`notes` additionally allows an explicit null), and `duration` is an integer
so that out-of-range requests are representable. -/
structure UpdateRequest where
  purpose : Option String := none
  notes : Option (Option String) := none
  duration : Option Int := none
  reservation_date : Option Nat := none
deriving DecidableEq, Repr

/-- The `findOne({_id: id, isDeleted: false})` lookup every reservation
route performs. -/
def findReservation (db : List Reservation) (rid : Nat) : Option Reservation :=
  db.find? (fun r => decide (r.rid = rid ∧ r.isDeleted = false))

/-- `PATCH /:id` applied to the found document: applies purpose/notes,
answers 400 when a supplied duration is outside 1..480, applies
duration/date, and saves (which re-runs schema validation and the pre-save
hook, including the duration-vs-times consistency check).  No status guard
and no conflict re-check appear anywhere in the handler. -/
def updateReservationDoc (r : Reservation) (q : UpdateRequest) : Except ApiErr Reservation :=
  let r1 := match q.purpose with
    | some p => { r with purpose := p.trim }
    | none => r
  let r2 := match q.notes with
    | some n => { r1 with notes := trimOrNone n }
    | none => r1
  match q.duration with
  | some dv =>
      if dv < 1 ∨ 480 < dv then
        .error (.validationFailed "Duration must be a number between 1 and 480 minutes (8 hours)")
      else
        let r3 := { r2 with duration := dv.toNat }
        let r4 := match q.reservation_date with
          | some nd => { r3 with rdate := nd }
          | none => r3
        saveExisting r4
  | none =>
      let r4 := match q.reservation_date with
        | some nd => { r2 with rdate := nd }
        | none => r2
      saveExisting r4

/-- `PATCH /:id` end to end: look up the non-deleted reservation, then apply
the update. -/
def updateReservationRoute (db : List Reservation) (rid : Nat) (q : UpdateRequest) :
    Except ApiErr Reservation :=
  match findReservation db rid with
  | none => .error .notFound
  | some r => updateReservationDoc r q

/-- Marks the first non-deleted document with the given id as deleted —
`findOne` followed by `reservation.isDeleted = true; reservation.save()`. -/
def softDeleteFirst : List Reservation → Nat → List Reservation
  | [], _ => []
  | r :: rest, rid =>
      if r.rid = rid ∧ r.isDeleted = false then { r with isDeleted := true } :: rest
      else r :: softDeleteFirst rest rid

/-- `DELETE /:id`: looks up the non-deleted reservation — with no role,
ownership, or status check of any kind — and saves it with `isDeleted`
set (the pre-save hook exits immediately for deleted documents; schema
validation still runs). -/
def deleteReservationRoute (db : List Reservation) (rid : Nat) :
    Except ApiErr (List Reservation) :=
  match findReservation db rid with
  | none => .error .notFound
  | some r =>
      match saveExisting { r with isDeleted := true } with
      | .error e => .error e
      | .ok _ => .ok (softDeleteFirst db rid)

/-! ## Concrete records used by counterexamples and witnesses -/

/-- An approved laboratory reservation on laboratory 2, 09:00-10:00 of day 0. -/
def c1OtherRoom : Reservation :=
  { rid := 1, user_id := 2, rtype := .laboratory, laboratory_id := some 2,
    rdate := 0, start_time := 540, end_time := 600, duration := 60,
    purpose := "class", status := .approved }

/-- A reservation in the terminal `rejected` state. -/
def c2Rejected : Reservation :=
  { rid := 11, user_id := 2, rtype := .computer, computer_id := some 3,
    rdate := 10, start_time := 540, end_time := 600, duration := 60,
    purpose := "work", status := .rejected, approved_by := some 5 }

/-- A reservation in the terminal `completed` state. -/
def c2Completed : Reservation :=
  { rid := 12, user_id := 2, rtype := .computer, computer_id := some 3,
    rdate := 10, start_time := 540, end_time := 600, duration := 60,
    purpose := "work", status := .completed, approved_by := some 5 }

/-- A computer inside laboratory 5. -/
def c4Computer : Computer := { cid := 1, laboratory_id := 5 }

/-- A pending reservation on computer 1, 09:00-10:00 of day 0. -/
def c4Pending : Reservation :=
  { rid := 21, user_id := 2, rtype := .computer, computer_id := some 1,
    rdate := 0, start_time := 540, end_time := 600, duration := 60,
    purpose := "homework", status := .pending }

/-- An approved laboratory reservation on laboratory 9, day 3. -/
def c4Approved : Reservation :=
  { rid := 22, user_id := 2, rtype := .laboratory, laboratory_id := some 9,
    rdate := 3, start_time := 500, end_time := 560, duration := 60,
    purpose := "lecture", status := .approved }

/-- An approved laboratory reservation on laboratory 5, 09:00-10:00 of day 0. -/
def c6Res : Reservation :=
  { rid := 31, user_id := 2, rtype := .laboratory, laboratory_id := some 5,
    rdate := 0, start_time := 540, end_time := 600, duration := 60,
    purpose := "lecture", status := .approved }

/-- A computer inside laboratory 5. -/
def c6Comp : Computer := { cid := 2, laboratory_id := 5 }

/-- The availability view of `c6Comp` on day 0 (probed on day 1, so no slot
is in the past) with `c6Res` committed. -/
def c6View : List SlotView := computerDayView [c6Res] [] c6Comp 0 60 1 0

/-- The 09:00-10:00 slot of `c6View`. -/
def c6Slot : SlotView := c6View.getD 1 (mkSlot [] [] 0 0 0 0 0)

/-- An active usage session that began at 09:00. -/
def c7Sess : UsageSession :=
  { usid := 1, reservation_id := 2, user_uid := 3, time_in := 540, status := .active }

/-- A quota holder with 40 minutes remaining. -/
def c7User : QuotaUser := { uid := 3, remaining_time := some 40 }

/-- The active reservation behind `c7Sess`. -/
def c7Resv : Reservation :=
  { rid := 2, user_id := 3, rtype := .computer, computer_id := some 4,
    rdate := 0, start_time := 540, end_time := 660, duration := 120,
    purpose := "session", status := .active }

/-- An academic configuration currently inside its first semester. -/
def c8Config : AcademicConfig :=
  { semesters := [⟨.first, 0, 99⟩, ⟨.second, 100, 199⟩], active_semester := some .first }

/-- One non-deleted student with an exhausted balance. -/
def c8Users : List StudentAccount :=
  [{ uid := 7, isStudent := true, isDeleted := false, remaining_time := some 0 }]

/-- An academic configuration with no active semester recorded. -/
def c8NullConfig : AcademicConfig :=
  { semesters := [⟨.first, 0, 99⟩], active_semester := none }

/-- A pending, well-formed reservation of 60 minutes. -/
def c9Res : Reservation :=
  { rid := 41, user_id := 2, rtype := .computer, computer_id := some 3,
    rdate := 5, start_time := 540, end_time := 600, duration := 60,
    purpose := "project", status := .pending }

/-- A completed reservation (terminal state) owned by user 2. -/
def c10Res : Reservation :=
  { rid := 51, user_id := 2, rtype := .computer, computer_id := some 3,
    rdate := 5, start_time := 540, end_time := 600, duration := 60,
    purpose := "done", status := .completed, approved_by := some 5,
    completed_at := some 600 }

/-! ## Claim C3 -/

/-- Claim C3: the conflict predicate on two half-open minute intervals holds
exactly when `s1 < e2 ∧ s2 < e1` at every place conflicts are computed — the
creation-time check (`reservationOverlapCheck`), the availability probes
(`slotReservationConflict`, `slotScheduleConflict`), and class-schedule
insertion (`isOverlap`) — and consequently it is symmetric, holds for a
non-degenerate interval compared with itself (and only then), and never
holds for two intervals sharing only a boundary point. -/
theorem claim3_overlap_law_everywhere :
    (∀ reqS reqE r, reservationOverlapCheck reqS reqE r = true ↔
        overlapPred reqS reqE r.start_time r.end_time) ∧
    (∀ s e r, slotReservationConflict s e r = true ↔
        overlapPred s e r.start_time r.end_time) ∧
    (∀ s e x, slotScheduleConflict s e x = true ↔
        overlapPred s e x.timeslot.tstart x.timeslot.tstop) ∧
    (∀ a b, isOverlap a b = true ↔ overlapPred a.tstart a.tstop b.tstart b.tstop) ∧
    (∀ s1 e1 s2 e2, overlapPred s1 e1 s2 e2 ↔ overlapPred s2 e2 s1 e1) ∧
    (∀ s e, overlapPred s e s e ↔ s < e) ∧
    (∀ s1 e1 e2, ¬ overlapPred s1 e1 e1 e2) := by
  refine ⟨?_, ?_, ?_, ?_, ?_, ?_, ?_⟩
  · intro reqS reqE r
    simp [reservationOverlapCheck, overlapPred]
  · intro s e r
    simp [slotReservationConflict, overlapPred]
  · intro s e x
    simp [slotScheduleConflict, overlapPred]
  · intro a b
    simp [isOverlap, overlapPred]
  · intro s1 e1 s2 e2
    constructor <;> exact fun h => ⟨h.2, h.1⟩
  · intro s e
    constructor
    · exact fun h => h.1
    · exact fun h => ⟨h, h⟩
  · intro s1 e1 e2
    exact fun h => lt_irrefl e1 h.2

/-! ## Claim C1 -/

/-- Membership in the creation-time conflict list, unfolded: the query
constrains type, status, deletion flag and date — but not the laboratory or
computer id. -/
theorem mem_checkReservationConflicts (db : List Reservation) (d startM dur : Nat)
    (t : RType) (excludeId : Option Nat) (r : Reservation) :
    r ∈ checkReservationConflicts db d startM dur t excludeId ↔
      r ∈ db ∧ r.rtype = t ∧ (r.status = .approved ∨ r.status = .active) ∧
        r.isDeleted = false ∧ r.rdate = d ∧ excludeId ≠ some r.rid ∧
        startM < r.end_time ∧ r.start_time < startM + dur := by
  simp only [checkReservationConflicts, List.mem_filter, conflictQueryMatch,
    reservationOverlapCheck, decide_eq_true_eq]
  tauto

/-- Claim C1 counterexample: laboratory 1 is requested by a faculty member
for 09:00-10:00 of day 0, the only commitment in the system is an approved
reservation on a different laboratory (laboratory 2), and there is no
committed commitment on laboratory 1 in the spec's sense — yet the creation
attempt is rejected with the 409 conflict response, because
`checkReservationConflicts` never constrains the laboratory id.  This
refutes both the "only if" direction and the "commitments on other Rooms
never cause the rejection" part of the claim. -/
theorem claim1_counterexample :
    isConflictErr (createReservation [c1OtherRoom] .faculty 3 .laboratory none (some 1)
        0 540 600 4 0 0 "lecture" none) = true ∧
      ¬ specCommittedOnRoom [c1OtherRoom] [] 1 0 540 600 := by
  constructor
  · rfl
  · unfold specCommittedOnRoom
    decide

/-- Claim C1 as amended: a faculty laboratory-creation attempt is rejected
with the conflict error exactly when some approved-or-active, non-deleted
laboratory reservation on the same date overlaps the requested interval —
regardless of which laboratory that reservation is on; recurring
class-schedule occurrences and computer reservations are never consulted by
the creation-time check (the condition below mentions no schedule source and
requires the laboratory type). -/
theorem claim1_conflict_iff_lab_overlap (db : List Reservation) (userId : Nat)
    (compId labId : Option Nat) (d sM eM newNum nowD nowM : Nat)
    (purpose : String) (notes : Option String) (hlt : sM < eM) :
    isConflictErr (createReservation db .faculty userId .laboratory compId labId
        d sM eM newNum nowD nowM purpose notes) = true ↔
      ∃ r ∈ db, r.rtype = RType.laboratory ∧
        (r.status = RStatus.approved ∨ r.status = RStatus.active) ∧
        r.isDeleted = false ∧ r.rdate = d ∧ sM < r.end_time ∧ r.start_time < eM := by
  have hadd : sM + (eM - sM) = eM := Nat.add_sub_cancel' hlt.le
  have hmem : ∀ r : Reservation,
      r ∈ checkReservationConflicts db d sM (eM - sM) RType.laboratory none ↔
        r ∈ db ∧ r.rtype = RType.laboratory ∧
          (r.status = RStatus.approved ∨ r.status = RStatus.active) ∧
          r.isDeleted = false ∧ r.rdate = d ∧ sM < r.end_time ∧ r.start_time < eM := by
    intro r
    rw [mem_checkReservationConflicts, hadd]
    simp
  have hcore : isConflictErr (createReservation db .faculty userId .laboratory compId labId
      d sM eM newNum nowD nowM purpose notes) =
      !(checkReservationConflicts db d sM (eM - sM) RType.laboratory none).isEmpty := by
    unfold createReservation
    rw [if_neg (not_le.mpr hlt)]
    cases h : (checkReservationConflicts db d sM (eM - sM) RType.laboratory none).isEmpty with
    | false => simp [h, isConflictErr]
    | true =>
        simp only [and_self, if_true, h, Bool.not_true]
        rw [if_neg (by simp)]
        split
        · rfl
        · split <;> rfl
  rw [hcore]
  constructor
  · intro h
    have hne : checkReservationConflicts db d sM (eM - sM) RType.laboratory none ≠ [] := by
      intro hnil
      rw [hnil] at h
      simp at h
    obtain ⟨x, hx⟩ := List.exists_mem_of_ne_nil _ hne
    exact ⟨x, (hmem x).mp hx⟩
  · rintro ⟨r, hr, hprops⟩
    have hin : r ∈ checkReservationConflicts db d sM (eM - sM) RType.laboratory none :=
      (hmem r).mpr ⟨hr, hprops⟩
    cases hcheck : checkReservationConflicts db d sM (eM - sM) RType.laboratory none with
    | nil =>
        rw [hcheck] at hin
        exact absurd hin (List.not_mem_nil r)
    | cons a as =>
        rfl

/-- Claim C1 witness: the amended theorem applied at a concrete input — the
overlapping approved laboratory reservation (on another room) makes the
faculty creation attempt for 09:00-11:00 answer with the conflict error. -/
theorem claim1_witness :
    isConflictErr (createReservation [c1OtherRoom] .faculty 3 .laboratory none (some 1)
        0 540 660 4 0 0 "lecture" none) = true := by
  exact (claim1_conflict_iff_lab_overlap [c1OtherRoom] 3 none (some 1) 0 540 660 4 0 0
    "lecture" none (by decide)).mpr (by decide)

/-! ## Claim C2 -/

/-- Claim C2 counterexample: the admin status-change endpoint moves a
reservation out of the terminal `rejected` state to `approved` — it succeeds
instead of failing with the invalid-transition error, refuting the claim
that no operation moves a reservation out of a terminal state. -/
theorem claim2_counterexample :
    (setStatusRoute c2Rejected 9 RStatus.approved none 77).map Reservation.status =
      Except.ok RStatus.approved := by
  rfl

/-- Claim C2 as amended: from `completed` or `cancelled`, every dedicated
lifecycle action (approve, reject, start, complete, cancel) fails with the
invalid-transition error and leaves the reservation unchanged; from
`rejected`, approve, reject, start and complete likewise fail — but cancel
succeeds (its guard only excludes `completed` and `cancelled`), and the
direct admin status-change endpoint overwrites any state, terminal ones
included, with the requested status. -/
theorem claim2_terminal_guards (r : Reservation) (adminId nowT : Nat)
    (reason notes : Option String) :
    ((r.status = RStatus.completed ∨ r.status = RStatus.cancelled) →
      approveReservation r adminId notes = .error .invalidTransition ∧
      rejectReservation r adminId reason notes = .error .invalidTransition ∧
      startReservation r nowT = .error .invalidTransition ∧
      completeReservation r nowT notes = .error .invalidTransition ∧
      cancelReservation r true notes = .error .invalidTransition) ∧
    (r.status = RStatus.rejected →
      approveReservation r adminId notes = .error .invalidTransition ∧
      rejectReservation r adminId reason notes = .error .invalidTransition ∧
      startReservation r nowT = .error .invalidTransition ∧
      completeReservation r nowT notes = .error .invalidTransition) ∧
    (r.status = RStatus.rejected → WellFormed r →
      (cancelReservation r true notes).map Reservation.status =
        Except.ok RStatus.cancelled) := by
  refine ⟨?_, ?_, ?_⟩
  · rintro (h | h) <;>
      refine ⟨?_, ?_, ?_, ?_, ?_⟩ <;>
      simp [approveReservation, rejectReservation, startReservation, completeReservation,
        cancelReservation, h]
  · intro h
    refine ⟨?_, ?_, ?_, ?_⟩ <;>
      simp [approveReservation, rejectReservation, startReservation, completeReservation, h]
  · intro h hwf
    obtain ⟨hd1, hd2, hst, hdiff, hdel⟩ := hwf
    rw [cancelReservation]
    rw [if_neg (by simp)]
    rw [if_neg (by simp [h])]
    rw [saveExisting]
    dsimp only
    rw [if_neg (by omega)]
    rw [if_neg (by simp [hdel])]
    rw [if_neg (by omega)]
    rw [if_neg (by rintro ⟨-, hgt⟩; omega)]
    rfl

/-- Claim C2 witness: the amended theorem applied to a concrete completed
reservation — the approve action fails with the invalid-transition error. -/
theorem claim2_witness :
    approveReservation c2Completed 1 none = .error .invalidTransition := by
  exact ((claim2_terminal_guards c2Completed 1 0 none none).1 (Or.inl rfl)).1

/-! ## Claim C4 -/

/-- Claim C4 counterexample: a single pending computer reservation for
09:00-10:00 makes the 09:00-10:00 slot of that computer's availability probe
unavailable (probed for day 0 on day 1, so the slot is not in the past) —
refuting the claim that a pending reservation never renders a probed slot
unavailable. -/
theorem claim4_counterexample :
    ((computerDayView [c4Pending] [] c4Computer 0 60 1 0)[1]?).map SlotView.is_available =
        some false ∧
      c4Pending.status = RStatus.pending := by
  constructor
  · rfl
  · rfl

/-- Claim C4 as amended: the creation-time conflict check and the laboratory
availability probe consider only approved or active reservations, but the
computer availability probe also includes pending reservations (both those
directly on the workstation and those on its parent room), so a pending
reservation can render a probed computer slot unavailable. -/
theorem claim4_committed_statuses :
    (∀ (db : List Reservation) (d sM dur : Nat) (t : RType) (excludeId : Option Nat)
        (r : Reservation), r ∈ checkReservationConflicts db d sM dur t excludeId →
      r.status = RStatus.approved ∨ r.status = RStatus.active) ∧
    (∀ (db : List Reservation) (scheds : List SubjectSchedule) (lab d dur nowD nowM : Nat)
        (sv : SlotView) (r : Reservation), sv ∈ laboratoryDayView db scheds lab d dur nowD nowM →
      r ∈ sv.conflicting_reservations →
      r.status = RStatus.approved ∨ r.status = RStatus.active) ∧
    (∀ (db : List Reservation) (scheds : List SubjectSchedule) (c : Computer)
        (d dur nowD nowM : Nat) (sv : SlotView) (r : Reservation),
      sv ∈ computerDayView db scheds c d dur nowD nowM →
      r ∈ sv.conflicting_reservations →
      r.status = RStatus.pending ∨ r.status = RStatus.approved ∨
        r.status = RStatus.active) := by
  refine ⟨?_, ?_, ?_⟩
  · intro db d sM dur t excludeId r hr
    exact ((mem_checkReservationConflicts db d sM dur t excludeId r).mp hr).2.2.1
  · intro db scheds lab d dur nowD nowM sv r hsv hr
    obtain ⟨s, -, rfl⟩ := List.mem_map.mp hsv
    simp only [mkSlot, List.mem_filter, labResMatch, decide_eq_true_eq] at hr
    exact hr.1.2.2.2.2.2
  · intro db scheds c d dur nowD nowM sv r hsv hr
    obtain ⟨s, -, rfl⟩ := List.mem_map.mp hsv
    simp only [mkSlot, List.mem_filter, List.mem_append, computerResMatch, parentLabResMatch,
      decide_eq_true_eq] at hr
    rcases hr.1 with h | h
    · exact h.2.2.2.2.2
    · exact h.2.2.2.2.2

/-- Claim C4 witness: the amended theorem applied at a concrete input — an
approved laboratory reservation found by the creation-time check indeed has
a committed status. -/
theorem claim4_witness :
    c4Approved ∈ checkReservationConflicts [c4Approved] 3 500 60 RType.laboratory none ∧
      (c4Approved.status = RStatus.approved ∨ c4Approved.status = RStatus.active) := by
  refine ⟨by decide, ?_⟩
  exact claim4_committed_statuses.1 [c4Approved] 3 500 60 RType.laboratory none c4Approved
    (by decide)

/-! ## Claim C5 -/

/-- Claim C5: for a valid, not-in-the-past request, (i) an admin request of
any type is created approved with the operator recorded as approver and no
conflict check run (the outcome never mentions the conflict list); (ii) a
faculty laboratory request with an empty conflict list is created approved
(with no approver recorded); (iii) a faculty laboratory request with a
non-empty conflict list is answered with the 409 conflict error and nothing
is persisted; (iv) a student request of any type is created pending, with an
outcome that does not depend on the database contents — no conflict check is
run. -/
theorem claim5_creation_policy (db : List Reservation) (userId : Nat) (t : RType)
    (compId labId : Option Nat) (d sM eM newNum nowD nowM : Nat)
    (purpose : String) (notes : Option String)
    (hlt : sM < eM) (hdur : eM - sM ≤ 480)
    (hpast : ¬ (d < nowD ∨ (d = nowD ∧ sM < nowM))) :
    (createReservation db .admin userId t compId labId d sM eM newNum nowD nowM purpose notes =
      .ok (buildReservation .admin userId t compId labId d sM eM newNum purpose notes
            .approved (some userId),
          db ++ [buildReservation .admin userId t compId labId d sM eM newNum purpose notes
            .approved (some userId)])) ∧
    (checkReservationConflicts db d sM (eM - sM) RType.laboratory none = [] →
      createReservation db .faculty userId .laboratory compId labId d sM eM newNum nowD nowM
          purpose notes =
        .ok (buildReservation .faculty userId .laboratory compId labId d sM eM newNum purpose
              notes .approved none,
            db ++ [buildReservation .faculty userId .laboratory compId labId d sM eM newNum
              purpose notes .approved none])) ∧
    (checkReservationConflicts db d sM (eM - sM) RType.laboratory none ≠ [] →
      createReservation db .faculty userId .laboratory compId labId d sM eM newNum nowD nowM
          purpose notes =
        .error (.conflictDetected (checkReservationConflicts db d sM (eM - sM)
          RType.laboratory none)) ∧
      persistedDb db (createReservation db .faculty userId .laboratory compId labId d sM eM
        newNum nowD nowM purpose notes) = db) ∧
    (createReservation db .student userId t compId labId d sM eM newNum nowD nowM purpose notes =
      .ok (buildReservation .student userId t compId labId d sM eM newNum purpose notes
            .pending none,
          db ++ [buildReservation .student userId t compId labId d sM eM newNum purpose notes
            .pending none])) := by
  have hne : ¬ (eM ≤ sM) := not_le.mpr hlt
  have hbounds : ¬ (eM - sM < 1 ∨ 480 < eM - sM) := by omega
  refine ⟨?_, ?_, ?_, ?_⟩
  · have hrole : ¬ (t = RType.laboratory ∧ Role.admin = Role.faculty) :=
      fun h => Role.noConfusion h.2
    unfold createReservation
    dsimp only
    rw [if_neg hne, if_neg hrole, if_neg (by simp), if_neg hbounds, if_neg hpast]
    rfl
  · intro hc
    have hrole : (RType.laboratory = RType.laboratory ∧ Role.faculty = Role.faculty) :=
      ⟨rfl, rfl⟩
    unfold createReservation
    dsimp only
    rw [if_neg hne, if_pos hrole, hc, if_neg (by simp), if_neg hbounds, if_neg hpast]
    rfl
  · intro hc
    have hrole : (RType.laboratory = RType.laboratory ∧ Role.faculty = Role.faculty) :=
      ⟨rfl, rfl⟩
    have hcreate : createReservation db .faculty userId .laboratory compId labId d sM eM
        newNum nowD nowM purpose notes =
        .error (.conflictDetected (checkReservationConflicts db d sM (eM - sM)
          RType.laboratory none)) := by
      unfold createReservation
      dsimp only
      rw [if_neg hne, if_pos hrole, if_pos (by simpa [List.isEmpty_iff] using hc)]
    refine ⟨hcreate, ?_⟩
    rw [hcreate]
    rfl
  · have hrole : ¬ (t = RType.laboratory ∧ Role.student = Role.faculty) :=
      fun h => Role.noConfusion h.2
    unfold createReservation
    dsimp only
    rw [if_neg hne, if_neg hrole, if_neg (by simp), if_neg hbounds, if_neg hpast]
    rfl

/-- Claim C5 witness: the policy theorem applied at a concrete input — an
admin creating a computer reservation for day 5 gets it approved with
themselves recorded as approver. -/
theorem claim5_witness :
    (createReservation [] .admin 1 .computer (some 2) none 5 540 600 9 0 0 "work" none).map
        (fun p => (p.1.status, p.1.approved_by)) =
      Except.ok (RStatus.approved, some 1) := by
  rw [(claim5_creation_policy [] 1 .computer (some 2) none 5 540 600 9 0 0 "work" none
    (by decide) (by decide) (by decide)).1]
  rfl

/-! ## Claim C6 -/

/-- Claim C6: an approved or active laboratory reservation on the parent
room of a workstation makes every slot of the workstation's availability
view for that date that it overlaps unavailable, with the room-level
commitment listed among the slot's conflicting reservations; conversely, the
room's own availability view is entirely unaffected by workstation
(computer-type) reservations — appending one to the database leaves the view
unchanged. -/
theorem claim6_room_blocks_workstations
    (db : List Reservation) (scheds : List SubjectSchedule) (c : Computer)
    (d dur nowD nowM : Nat) (r : Reservation) (sv : SlotView)
    (hmem : r ∈ db) (hdel : r.isDeleted = false) (ht : r.rtype = RType.laboratory)
    (hlab : r.laboratory_id = some c.laboratory_id) (hd : r.rdate = d)
    (hst : r.status = RStatus.approved ∨ r.status = RStatus.active)
    (hsv : sv ∈ computerDayView db scheds c d dur nowD nowM)
    (ho1 : sv.slot_start < r.end_time) (ho2 : r.start_time < sv.slot_end) :
    (sv.is_available = false ∧ sv.has_conflict = true ∧
      r ∈ sv.conflicting_reservations) ∧
    (∀ (db2 : List Reservation) (w : Reservation) (lab : Nat), w.rtype = RType.computer →
      laboratoryDayView (db2 ++ [w]) scheds lab d dur nowD nowM =
        laboratoryDayView db2 scheds lab d dur nowD nowM) := by
  constructor
  · obtain ⟨s, hsmem, rfl⟩ := List.mem_map.mp hsv
    simp only [mkSlot] at ho1 ho2 ⊢
    have hall : r ∈ db.filter (computerResMatch c d) ++ db.filter (parentLabResMatch c d) := by
      apply List.mem_append_right
      simp only [List.mem_filter, parentLabResMatch, decide_eq_true_eq]
      exact ⟨hmem, hdel, ht, hlab, hd, by tauto⟩
    have hrc : r ∈ (db.filter (computerResMatch c d) ++
        db.filter (parentLabResMatch c d)).filter
          (slotReservationConflict s (s + dur)) := by
      simp only [List.mem_filter, slotReservationConflict, decide_eq_true_eq]
      exact ⟨hall, ho1, ho2⟩
    have hemp : ((db.filter (computerResMatch c d) ++
        db.filter (parentLabResMatch c d)).filter
          (slotReservationConflict s (s + dur))).isEmpty = false := by
      cases hh : (db.filter (computerResMatch c d) ++
          db.filter (parentLabResMatch c d)).filter
            (slotReservationConflict s (s + dur)) with
      | nil => rw [hh] at hrc; exact absurd hrc (List.not_mem_nil r)
      | cons a as => rfl
    refine ⟨?_, ?_, hrc⟩
    · simp only [hemp, Bool.not_false, Bool.true_or, Bool.not_true, Bool.and_false]
    · simp only [hemp, Bool.not_false, Bool.true_or]
  · intro db2 w lab hw
    unfold laboratoryDayView
    have : (db2 ++ [w]).filter (labResMatch lab d) = db2.filter (labResMatch lab d) := by
      rw [List.filter_append]
      have hwf : labResMatch lab d w = false := by
        simp only [labResMatch, decide_eq_false_iff_not]
        rintro ⟨-, hty, -⟩
        rw [hw] at hty
        exact RType.noConfusion hty
      simp [hwf]
    rw [this]

/-- Claim C6 witness: the theorem applied at a concrete input — the approved
room reservation 09:00-10:00 on laboratory 5 makes the 09:00-10:00 slot of
computer 2 (inside laboratory 5) unavailable, with the room reservation
listed among the slot's conflicts. -/
theorem claim6_witness :
    c6Slot.is_available = false ∧ c6Res ∈ c6Slot.conflicting_reservations := by
  have h := claim6_room_blocks_workstations [c6Res] [] c6Comp 0 60 1 0 c6Res c6Slot
    (by decide) (by decide) (by decide) (by decide) (by decide) (Or.inl (by decide))
    (by decide) (by decide) (by decide)
  exact ⟨h.1.1, h.1.2.2⟩

/-! ## Claim C7 -/

/-- Claim C7: ending an active session with a valid time-out closes it —
the session's duration becomes the elapsed time, the holder's balance is
debited by exactly that duration, floored at zero (truncated subtraction),
with an over-balance debit merely flagged as overtime and never an error —
and the parent reservation is forced to completed; and any further attempt
to end the already-closed session fails with an error (so the balance is
debited exactly once per session). -/
theorem claim7_close_session (s : UsageSession) (u : QuotaUser) (resv : Reservation)
    (timeOut : Nat) (reqStatus : UStatus) (bal : Nat)
    (hact : s.status = UStatus.active) (hbal : u.remaining_time = some bal)
    (ht : s.time_in < timeOut) :
    endSession s u resv timeOut reqStatus =
      .ok { session := { s with
              time_out := some timeOut
              duration := timeOut - s.time_in
              status := if reqStatus = UStatus.active then UStatus.completed else reqStatus }
            user := { u with remaining_time := some (bal - (timeOut - s.time_in)) }
            reservation := { resv with status := RStatus.completed }
            overtimeLogged := decide (bal < timeOut - s.time_in) } ∧
    (∀ (u2 : QuotaUser) (r2 : Reservation) (t2 : Nat) (q2 : UStatus),
      endSession { s with
          time_out := some timeOut
          duration := timeOut - s.time_in
          status := if reqStatus = UStatus.active then UStatus.completed else reqStatus }
        u2 r2 t2 q2 = .error .invalidTransition) := by
  constructor
  · unfold endSession
    rw [if_neg (by simp [hact]), if_neg (by omega), hbal]
  · intro u2 r2 t2 q2
    unfold endSession
    rw [if_pos]
    rcases reqStatus with _ | _ | _ | _ <;> simp

/-- Claim C7 witness: the theorem applied at a concrete input — closing a
60-minute session against a 40-minute balance still succeeds, floors the
balance at zero, and completes the reservation. -/
theorem claim7_witness :
    (endSession c7Sess c7User c7Resv 600 UStatus.completed).map
        (fun out => (out.user.remaining_time, out.reservation.status, out.overtimeLogged)) =
      Except.ok (some 0, RStatus.completed, true) := by
  rw [(claim7_close_session c7Sess c7User c7Resv 600 UStatus.completed 40 rfl rfl
    (by decide)).1]
  rfl

/-! ## Claim C8 -/

/-- Claim C8 counterexample: on day 120 the active configuration transitions
directly from the first to the second semester; a configured default of 300
minutes exists and a matching (non-deleted student) holder has balance 0 —
yet the trigger only records the new semester and leaves the balance at 0,
refuting the claim that every semester transition sets matching balances to
the configured default.  (The reset only fires when the stored active
semester was null.) -/
theorem claim8_counterexample :
    updateActiveSemesterForActiveConfig c8Config c8Users (some 300) 120 =
      { config := { c8Config with active_semester := some .second }
        users := c8Users
        semester_changed := true } ∧
      c8Users = [{ uid := 7, isStudent := true, isDeleted := false, remaining_time := some 0 }] := by
  constructor
  · rfl
  · rfl

/-- Claim C8 as amended: (i) the trigger is idempotent — applying it a
second time in the same semester period (same configuration, same computed
date) changes nothing and reports no semester change; (ii) on a transition
from no active semester into a semester with a configured default, every
matching (student, non-deleted) holder's balance is set to the default;
(iii) on a direct semester-to-semester transition (stored active semester
non-null) no balance changes. -/
theorem claim8_reset_semantics (cfg : AcademicConfig) (users : List StudentAccount)
    (defaultAllotted : Option Nat) (today : Nat) :
    (updateActiveSemesterForActiveConfig
        (updateActiveSemesterForActiveConfig cfg users defaultAllotted today).config
        (updateActiveSemesterForActiveConfig cfg users defaultAllotted today).users
        defaultAllotted today =
      { config := (updateActiveSemesterForActiveConfig cfg users defaultAllotted today).config
        users := (updateActiveSemesterForActiveConfig cfg users defaultAllotted today).users
        semester_changed := false }) ∧
    (∀ t : Nat, cfg.active_semester = none → computeActiveSemester cfg today ≠ none →
      (updateActiveSemesterForActiveConfig cfg users (some t) today).users =
        resetStudentBalances users t ∧
      ∀ u ∈ (updateActiveSemesterForActiveConfig cfg users (some t) today).users,
        u.isStudent = true → u.isDeleted = false → u.remaining_time = some t) ∧
    (∀ a : SemName, cfg.active_semester = some a →
      (updateActiveSemesterForActiveConfig cfg users defaultAllotted today).users = users) := by
  have hsem : ∀ (cfg2 : AcademicConfig) (us : List StudentAccount) (da : Option Nat),
      (updateActiveSemesterForActiveConfig cfg2 us da today).config.semesters =
        cfg2.semesters ∧
      (updateActiveSemesterForActiveConfig cfg2 us da today).config.active_semester =
        computeActiveSemester cfg2 today := by
    intro cfg2 us da
    unfold updateActiveSemesterForActiveConfig
    by_cases h : cfg2.active_semester = computeActiveSemester cfg2 today
    · rw [if_pos h]
      exact ⟨rfl, h⟩
    · rw [if_neg h]
      by_cases h2 : cfg2.active_semester = none ∧ computeActiveSemester cfg2 today ≠ none
      · rw [if_pos h2]
        cases da <;> exact ⟨rfl, rfl⟩
      · rw [if_neg h2]
        exact ⟨rfl, rfl⟩
  have hfix : ∀ (cfg3 : AcademicConfig) (us : List StudentAccount),
      cfg3.active_semester = computeActiveSemester cfg3 today →
      updateActiveSemesterForActiveConfig cfg3 us defaultAllotted today =
        { config := cfg3, users := us, semester_changed := false } := by
    intro cfg3 us h
    unfold updateActiveSemesterForActiveConfig
    rw [if_pos h]
  refine ⟨?_, ?_, ?_⟩
  · obtain ⟨hs1, hs2⟩ := hsem cfg users defaultAllotted
    have hcur : computeActiveSemester
        (updateActiveSemesterForActiveConfig cfg users defaultAllotted today).config today =
        computeActiveSemester cfg today := by
      unfold computeActiveSemester
      rw [hs1]
    exact hfix _ _ (by rw [hs2, hcur])
  · intro t hnone hsome
    have hne : cfg.active_semester ≠ computeActiveSemester cfg today := by
      rw [hnone]
      exact fun h => hsome h.symm
    have husers : (updateActiveSemesterForActiveConfig cfg users (some t) today).users =
        resetStudentBalances users t := by
      unfold updateActiveSemesterForActiveConfig
      rw [if_neg hne, if_pos ⟨hnone, hsome⟩]
    refine ⟨husers, ?_⟩
    intro u hu hstu hdel
    rw [husers] at hu
    obtain ⟨u0, -, hu0⟩ := List.mem_map.mp hu
    by_cases hc : u0.isStudent = true ∧ u0.isDeleted = false
    · rw [if_pos hc] at hu0
      rw [← hu0]
    · rw [if_neg hc] at hu0
      subst hu0
      exact absurd ⟨hstu, hdel⟩ hc
  · intro a ha
    unfold updateActiveSemesterForActiveConfig
    by_cases h : cfg.active_semester = computeActiveSemester cfg today
    · rw [if_pos h]
    · rw [if_neg h, if_neg (by rw [ha]; rintro ⟨h1, -⟩; exact Option.noConfusion h1)]

/-- Claim C8 witness: the amended theorem applied at a concrete input — a
transition from no active semester into the first semester resets the
matching student's balance to the configured default. -/
theorem claim8_witness :
    (updateActiveSemesterForActiveConfig c8NullConfig c8Users (some 300) 50).users =
      resetStudentBalances c8Users 300 := by
  exact ((claim8_reset_semantics c8NullConfig c8Users (some 300) 50).2.1 300 rfl
    (by decide)).1

/-! ## Claim C9 -/

/-- Claim C9 counterexample: updating the duration of a pending (non-
terminal) reservation with stored times 09:00-10:00 to 120 minutes — a value
inside the 1..480 bounds — is not accepted: the pre-save hook rejects any
duration differing from `end_time - start_time` by more than one minute, so
the update fails at save time.  This refutes "updating ... duration ... is
accepted at any non-terminal state". -/
theorem claim9_counterexample :
    updateReservationDoc c9Res { duration := some 120 } =
      .error (.saveFailed "Duration must match the difference between start_time and end_time") ∧
      c9Res.status = RStatus.pending ∧ (1 : Int) ≤ 120 ∧ (120 : Int) ≤ 480 := by
  refine ⟨rfl, rfl, by norm_num, by norm_num⟩

/-- Claim C9 as amended: (i) a requested duration outside 1..480 fails with
the route-level validation error (and, the update being answered before
`save()`, the stored reservation is unchanged); (ii) the route's outcome
depends only on the looked-up record — databases agreeing on the target
record produce identical outcomes, so no conflict re-check against other
reservations occurs for any new date or duration; (iii) a purpose/notes/date
update of a well-formed reservation succeeds at any lifecycle state
(terminal ones included — the handler never inspects the status); (iv) an
in-bounds duration update succeeds exactly when the requested duration is
within one minute of `end_time - start_time`. -/
theorem claim9_update_semantics :
    (∀ (r : Reservation) (q : UpdateRequest) (dv : Int), q.duration = some dv →
      (dv < 1 ∨ 480 < dv) →
      updateReservationDoc r q =
        .error (.validationFailed
          "Duration must be a number between 1 and 480 minutes (8 hours)")) ∧
    (∀ (db1 db2 : List Reservation) (rid : Nat) (q : UpdateRequest),
      findReservation db1 rid = findReservation db2 rid →
      updateReservationRoute db1 rid q = updateReservationRoute db2 rid q) ∧
    (∀ (r : Reservation) (q : UpdateRequest), WellFormed r → q.duration = none →
      updateReservationDoc r q = .ok { r with
        purpose := match q.purpose with | some p => p.trim | none => r.purpose
        notes := match q.notes with | some n => trimOrNone n | none => r.notes
        rdate := match q.reservation_date with | some nd => nd | none => r.rdate }) ∧
    (∀ (r : Reservation) (q : UpdateRequest) (dv : Int), WellFormed r →
      q.duration = some dv → 1 ≤ dv → dv ≤ 480 →
      (isOkE (updateReservationDoc r q) = true ↔
        natAbsDiff dv.toNat (r.end_time - r.start_time) ≤ 1)) := by
  refine ⟨?_, ?_, ?_, ?_⟩
  · intro r q dv hq hout
    unfold updateReservationDoc
    rw [hq]
    dsimp only
    rw [if_pos hout]
  · intro db1 db2 rid q hagree
    unfold updateReservationRoute
    rw [hagree]
  · intro r q hwf hq
    obtain ⟨hd1, hd2, hst, hdiff, hdel⟩ := hwf
    rcases q with ⟨qp, qn, qd, qr⟩
    simp only at hq
    subst hq
    unfold updateReservationDoc
    dsimp only
    rcases qp with _ | p <;> rcases qn with _ | n <;> rcases qr with _ | nd <;>
      · try dsimp only
        rw [saveExisting]
        try dsimp only
        rw [if_neg (by omega), if_neg (by simp [hdel]), if_neg (by omega),
          if_neg (by rintro ⟨-, hgt⟩; omega)]
  · intro r q dv hwf hq h1 h2
    obtain ⟨hd1, hd2, hst, hdiff, hdel⟩ := hwf
    rcases q with ⟨qp, qn, qd, qr⟩
    simp only at hq
    subst hq
    have htn1 : 1 ≤ dv.toNat := by omega
    have htn2 : dv.toNat ≤ 480 := by omega
    unfold updateReservationDoc
    dsimp only
    rw [if_neg (by omega)]
    constructor
    · intro hok
      by_contra hgt
      rcases qp with _ | p <;> rcases qn with _ | n <;> rcases qr with _ | nd <;>
        · try dsimp only at hok
          rw [saveExisting] at hok
          try dsimp only at hok
          rw [if_neg (by omega), if_neg (by simp [hdel]), if_neg (by omega),
            if_pos (by exact ⟨by omega, by omega⟩)] at hok
          exact Bool.noConfusion hok
    · intro hle
      rcases qp with _ | p <;> rcases qn with _ | n <;> rcases qr with _ | nd <;>
        · try dsimp only
          rw [saveExisting]
          try dsimp only
          rw [if_neg (by omega), if_neg (by simp [hdel]), if_neg (by omega),
            if_neg (by rintro ⟨-, hgt⟩; omega)]
          rfl

/-- Claim C9 witness: the amended theorem applied at a concrete input — a
requested duration of 500 minutes is rejected with the route's validation
error. -/
theorem claim9_witness :
    updateReservationDoc c9Res { duration := some 500 } =
      .error (.validationFailed
        "Duration must be a number between 1 and 480 minutes (8 hours)") := by
  exact claim9_update_semantics.1 c9Res { duration := some 500 } 500 rfl (by norm_num)

/-! ## Claim C10 -/

/-- After soft-deleting the (unique) document with a given id, the standard
`findOne({_id, isDeleted: false})` lookup no longer resolves it. -/
theorem softDeleteFirst_find_none (db : List Reservation) (rid : Nat)
    (huniq : db.countP (fun x => decide (x.rid = rid)) ≤ 1) :
    findReservation (softDeleteFirst db rid) rid = none := by
  induction db with
  | nil => rfl
  | cons a rest ih =>
      by_cases ha : a.rid = rid ∧ a.isDeleted = false
      · unfold softDeleteFirst
        rw [if_pos ha]
        unfold findReservation
        rw [List.find?_cons_of_neg _ (by simp)]
        have hzero : rest.countP (fun x => decide (x.rid = rid)) = 0 := by
          rw [List.countP_cons_of_pos (fun x => decide (x.rid = rid)) rest
            (by simpa using ha.1)] at huniq
          omega
        rw [List.find?_eq_none]
        intro x hx
        have : ¬ (x.rid = rid) := by
          have := List.countP_eq_zero.mp hzero x hx
          simpa using this
        simp [this]
      · unfold softDeleteFirst
        rw [if_neg ha]
        unfold findReservation
        rw [List.find?_cons_of_neg _ (by simpa using ha)]
        apply ih
        rw [List.countP_cons] at huniq
        exact le_trans (Nat.le_add_right _ _) huniq

/-- Soft deletion rewrites each document to either itself or itself with
only the `isDeleted` flag raised. -/
theorem softDeleteFirst_frame (db : List Reservation) (rid : Nat) :
    List.Forall₂ (fun x y => y = x ∨ y = { x with isDeleted := true }) db
      (softDeleteFirst db rid) := by
  induction db with
  | nil => exact List.Forall₂.nil
  | cons a rest ih =>
      by_cases ha : a.rid = rid ∧ a.isDeleted = false
      · unfold softDeleteFirst
        rw [if_pos ha]
        exact List.Forall₂.cons (Or.inr rfl)
          ((List.forall₂_same).mpr (fun x _ => Or.inl rfl))
      · unfold softDeleteFirst
        rw [if_neg ha]
        exact List.Forall₂.cons (Or.inl rfl) ih

/-- Claim C10: deleting a resolvable (non-deleted, schema-valid) reservation
succeeds — the handler takes no role, ownership, or lifecycle-state input at
all, so this holds for every authenticated caller and every status,
terminal ones included; the database afterwards is the original with only
the target's `isDeleted` flag changed (every other field of every document
is untouched); and every subsequent lookup of that id — the shared
`findOne({_id, isDeleted: false})`, the update route, and a repeated delete —
answers not-found. -/
theorem claim10_soft_delete (db : List Reservation) (rid : Nat) (r : Reservation)
    (hfind : findReservation db rid = some r)
    (hd1 : 1 ≤ r.duration) (hd2 : r.duration ≤ 480)
    (huniq : db.countP (fun x => decide (x.rid = rid)) ≤ 1) :
    deleteReservationRoute db rid = .ok (softDeleteFirst db rid) ∧
    findReservation (softDeleteFirst db rid) rid = none ∧
    (∀ q : UpdateRequest,
      updateReservationRoute (softDeleteFirst db rid) rid q = .error .notFound) ∧
    deleteReservationRoute (softDeleteFirst db rid) rid = .error .notFound ∧
    List.Forall₂ (fun x y => y = x ∨ y = { x with isDeleted := true }) db
      (softDeleteFirst db rid) := by
  have hnone := softDeleteFirst_find_none db rid huniq
  refine ⟨?_, hnone, ?_, ?_, softDeleteFirst_frame db rid⟩
  · unfold deleteReservationRoute
    rw [hfind]
    have hsave : saveExisting { r with isDeleted := true } = .ok { r with isDeleted := true } := by
      unfold saveExisting
      dsimp only
      rw [if_neg (by omega), if_pos rfl]
    dsimp only
    rw [hsave]
  · intro q
    unfold updateReservationRoute
    rw [hnone]
  · unfold deleteReservationRoute
    rw [hnone]

/-- Claim C10 witness: the theorem applied at a concrete input — after
deleting a completed reservation, the lookup of its id resolves nothing. -/
theorem claim10_witness :
    findReservation (softDeleteFirst [c10Res] 51) 51 = none := by
  exact (claim10_soft_delete [c10Res] 51 c10Res (by decide) (by decide) (by decide)
    (by decide)).2.1

end NextLib
